import Mathlib

/-!
Shallow embedding of the core of the context-aware research chatbot
(`tools.py`, `chatbot.py`, `database.py`, `evaluation.py`).

Conventions used throughout this development:
* Python strings are Lean `String`s; characters are compared on their
  code points.  `str.lower`, `str.strip` and the two regular expressions
  that occur in the source are modelled by explicit executable functions
  over `List Char`, restricted to the ASCII behaviour that every input
  appearing in the repository exercises.
* External collaborators (the language-generation service, the retriever,
  the search providers, the persistence commit outcome) are parameters of
  the embedded functions; a collaborator that may raise is modelled with
  `Except`/`Option`.
* Python's `eval`, as reachable through `MathTool.calculate`'s character
  allow-list, is modelled by an executable tokenizer / recursive-descent
  parser / evaluator over exact rationals (`pyEval` below).
-/

/-- The six ASCII characters matched by Python's `\s` (and stripped by
`str.strip` for ASCII input): space, tab, newline, carriage return,
vertical tab, form feed. -/
def isPyWs (c : Char) : Bool :=
  c == ' ' || c == '\t' || c == '\n' || c == '\r' || c == '\x0b' || c == '\x0c'

/-- ASCII decimal digit, the `\d` class of the source's regular
expressions (restricted to ASCII). -/
def isPyDigit (c : Char) : Bool :=
  '0' ≤ c && c ≤ '9'

/-- `List Char` model of Python `str.strip()`: drop leading and trailing
whitespace. -/
def pyStripList (cs : List Char) : List Char :=
  ((cs.dropWhile isPyWs).reverse.dropWhile isPyWs).reverse

/-- `String` model of Python `str.strip()`. -/
def pyStrip (s : String) : String :=
  String.mk (pyStripList s.data)

/-- ASCII lowercase of one character.  Python's `str.lower` is
Unicode-aware; every keyword and query in the repository is ASCII, so
the ASCII mapping is the relevant fragment. -/
def asciiLower (c : Char) : Char :=
  if 'A' ≤ c && c ≤ 'Z' then Char.ofNat (c.toNat + 32) else c

/-- `List Char` model of Python `str.lower()` (ASCII fragment). -/
def pyLower (s : String) : String :=
  String.mk (s.data.map asciiLower)

/-- Does `needle` occur at the very start of `hay`?  (Helper for the
Python `in` substring test.) -/
def subAt : List Char → List Char → Bool
  | _, [] => true
  | [], _ :: _ => false
  | h :: hs, n :: ns => h == n && subAt hs ns

/-- Python's `needle in hay` substring containment on character lists. -/
def hasSub : List Char → List Char → Bool
  | [], needle => needle.isEmpty
  | h :: t, needle => subAt (h :: t) needle || hasSub t needle

/-- Python's `needle in hay` on strings. -/
def strContains (hay needle : String) : Bool :=
  hasSub hay.data needle.data

/-- `any(keyword in text for keyword in keys)` from `QueryRouter.route`. -/
def containsAny (text : String) (keys : List String) : Bool :=
  keys.any fun k => strContains text k

/-- One of the four operator characters of the character class
`[+\-*/]` in the router's regular expression. -/
def isRouteOp (c : Char) : Bool :=
  c == '+' || c == '-' || c == '*' || c == '/'

/-- Does the regular expression `\d+\s*[+\-*/]\s*\d+` match at the head
of `cs`?  Because no digit is a whitespace or operator character, the
greedy `\d+` has a unique viable extent, so matching at a position is a
deterministic scan. -/
def matchMathHere (cs : List Char) : Bool :=
  match cs.takeWhile isPyDigit with
  | [] => false
  | _ :: _ =>
    match (cs.dropWhile isPyDigit).dropWhile isPyWs with
    | [] => false
    | c :: rest =>
      isRouteOp c &&
        match rest.dropWhile isPyWs with
        | [] => false
        | d :: _ => isPyDigit d

/-- `re.search(r'\d+\s*[+\-*/]\s*\d+', query)` from `QueryRouter.route`:
the pattern matches at some position of the text. -/
def searchMathPattern : List Char → Bool
  | [] => false
  | c :: rest => matchMathHere (c :: rest) || searchMathPattern rest

namespace QueryRouter

/-- `self.math_keywords` from `QueryRouter.__init__`. -/
def math_keywords : List String :=
  ["calculate", "compute", "math", "arithmetic", "+", "-", "*", "/", "%"]

/-- `self.web_keywords` from `QueryRouter.__init__`. -/
def web_keywords : List String :=
  ["latest", "recent", "news", "current", "today", "yesterday", "breaking"]

/-- `self.rag_keywords` from `QueryRouter.__init__`. -/
def rag_keywords : List String :=
  ["policy", "regulation", "guideline", "law", "compliance", "standard"]

/-- `QueryRouter.route` from `tools.py`: keyword screen plus numeric
pattern for math, then web keywords, then rag keywords, defaulting to
`"rag"`.  (If the math keyword screen succeeds but the numeric pattern
fails, the source falls through to the web/rag checks, which the single
combined condition below reproduces.) -/
def route (query : String) : String :=
  let ql := pyLower query
  if containsAny ql math_keywords && searchMathPattern query.data then "math"
  else if containsAny ql web_keywords then "web_search"
  else if containsAny ql rag_keywords then "rag"
  else "rag"

/-- `QueryRouter.get_routing_explanation` from `tools.py`. -/
def get_routing_explanation (query : String) : String :=
  match route query with
  | "math" => "Routing to calculator for mathematical computation"
  | "web_search" => "Routing to web search for current information"
  | "rag" => "Routing to knowledge base for domain-specific information"
  | _ => "Using default routing to knowledge base"

end QueryRouter

example : QueryRouter.route "Calculate 15% of 250000" = "rag" := by decide
example : QueryRouter.route "What are the latest AI safety guidelines?" = "web_search" := by
  decide
example : QueryRouter.route "What is 2 + 2?" = "math" := by decide
example : QueryRouter.route "compute 20 % 5" = "rag" := by decide

/-!
## Python `eval`, restricted to the calculator's character allow-list

`MathTool.calculate` passes the checked expression to Python's `eval`.
On the allow-list alphabet `0123456789+-*/.() ` the reachable language
is arithmetic: integer and decimal literals, unary `+`/`-`, binary
`+ - * / ** //`, parentheses.  We model values as exact rationals
tagged with Python's int/float distinction.  Deliberate model
limitations, none of which is exercised by any theorem below: float
results are exact rationals (no IEEE rounding), float `repr` is plain
decimal expansion truncated at 17 fractional digits (no
shortest-roundtrip or scientific notation), and `**` with a
non-integral exponent reports an error instead of a real-valued power.
-/

/-- A Python numeric value as produced by `eval` on arithmetic input:
an `int`, or a `float` modelled as an exact rational. -/
inductive PyVal where
  | int (n : ℤ)
  | float (q : ℚ)
deriving DecidableEq

/-- The error outcomes of `eval` that `MathTool.calculate` distinguishes:
`ZeroDivisionError` versus any other exception (carrying `str(e)`). -/
inductive PyErr where
  | zeroDiv
  | exn (msg : String)
deriving DecidableEq

/-!
Rational arithmetic helpers.  The `Rat` arithmetic of the standard
library is `@[irreducible]`, which blocks kernel evaluation (`decide`)
on concrete inputs; the functions below compute the same rationals
through `Rat.divInt`, which normalises and stays reducible.
-/

/-- The rational `n / 1`. -/
def intToRat (n : ℤ) : ℚ := Rat.divInt n 1

/-- The rational `n / 1`. -/
def natToRat (n : ℕ) : ℚ := Rat.divInt (Int.ofNat n) 1

/-- Rational addition (kernel-reducible). -/
def ratAdd (a b : ℚ) : ℚ :=
  Rat.divInt (a.num * (b.den : ℤ) + b.num * (a.den : ℤ)) ((a.den : ℤ) * (b.den : ℤ))

/-- Rational subtraction (kernel-reducible). -/
def ratSub (a b : ℚ) : ℚ :=
  Rat.divInt (a.num * (b.den : ℤ) - b.num * (a.den : ℤ)) ((a.den : ℤ) * (b.den : ℤ))

/-- Rational multiplication (kernel-reducible). -/
def ratMul (a b : ℚ) : ℚ :=
  Rat.divInt (a.num * b.num) ((a.den : ℤ) * (b.den : ℤ))

/-- Rational division (kernel-reducible); `Rat.divInt` carries the
divisor's sign into the numerator and sends a zero divisor to `0`. -/
def ratDiv (a b : ℚ) : ℚ :=
  Rat.divInt (a.num * (b.den : ℤ)) ((a.den : ℤ) * b.num)

/-- The rational carried by a value. -/
def PyVal.toRat : PyVal → ℚ
  | .int n => intToRat n
  | .float q => q

/-- Floor of a rational, as explicit integer arithmetic (`den` is
positive, so Euclidean division of `num` by `den` floors). -/
def ratFloor (q : ℚ) : ℤ :=
  Int.ediv q.num (q.den : ℤ)

/-- `q ^ n` by explicit recursion (kernel-reducible). -/
def ratPowNat (q : ℚ) : ℕ → ℚ
  | 0 => natToRat 1
  | n + 1 => ratMul q (ratPowNat q n)

/-- `q ^ k` for an integer exponent, via `ratPowNat` and division. -/
def ratZpow (q : ℚ) : ℤ → ℚ
  | .ofNat n => ratPowNat q n
  | .negSucc n => ratDiv (natToRat 1) (ratPowNat q (n + 1))

/-- Tokens of the arithmetic fragment. -/
inductive Tok where
  | num (v : PyVal)
  | plus
  | minus
  | star
  | slash
  | dstar
  | dslash
  | lparen
  | rparen
deriving DecidableEq

/-- Numeric value of a digit list (most significant first). -/
def digitsToNat (ds : List Char) : ℕ :=
  ds.foldl (fun a c => a * 10 + (c.toNat - '0'.toNat)) 0

/-- Tokenizer for the arithmetic fragment, with fuel (each step consumes
at least one character, so `length + 1` fuel suffices).  Numeric
literals follow Python's lexer on this alphabet: `12`, `12.5`, `.5` and
`12.` are numbers; a bare `.` is a syntax error. -/
def tokenize : ℕ → List Char → Except PyErr (List Tok)
  | 0, _ => .error (.exn "tokenizer fuel exhausted")
  | _ + 1, [] => .ok []
  | fuel + 1, c :: rest =>
    if isPyWs c then tokenize fuel rest
    else if isPyDigit c || c == '.' then
      let intDs := (c :: rest).takeWhile isPyDigit
      let afterInt := (c :: rest).dropWhile isPyDigit
      match afterInt with
      | '.' :: afterDot =>
        let fracDs := afterDot.takeWhile isPyDigit
        if intDs.isEmpty && fracDs.isEmpty then
          .error (.exn "invalid decimal literal")
        else do
          let q : ℚ :=
            ratAdd (natToRat (digitsToNat intDs))
              (ratDiv (natToRat (digitsToNat fracDs)) (ratPowNat (natToRat 10) fracDs.length))
          let toks ← tokenize fuel (afterDot.dropWhile isPyDigit)
          .ok (Tok.num (.float q) :: toks)
      | _ => do
        let toks ← tokenize fuel afterInt
        .ok (Tok.num (.int (digitsToNat intDs)) :: toks)
    else if c == '+' then do
      let toks ← tokenize fuel rest
      .ok (Tok.plus :: toks)
    else if c == '-' then do
      let toks ← tokenize fuel rest
      .ok (Tok.minus :: toks)
    else if c == '*' then
      match rest with
      | '*' :: rest2 => do
        let toks ← tokenize fuel rest2
        .ok (Tok.dstar :: toks)
      | _ => do
        let toks ← tokenize fuel rest
        .ok (Tok.star :: toks)
    else if c == '/' then
      match rest with
      | '/' :: rest2 => do
        let toks ← tokenize fuel rest2
        .ok (Tok.dslash :: toks)
      | _ => do
        let toks ← tokenize fuel rest
        .ok (Tok.slash :: toks)
    else if c == '(' then do
      let toks ← tokenize fuel rest
      .ok (Tok.lparen :: toks)
    else if c == ')' then do
      let toks ← tokenize fuel rest
      .ok (Tok.rparen :: toks)
    else
      .error (.exn "invalid character")

/-- Is the value an `int`? -/
def PyVal.isInt : PyVal → Bool
  | .int _ => true
  | .float _ => false

/-- Python `+` on numbers: `int + int` is `int`, otherwise `float`. -/
def pyAdd : PyVal → PyVal → PyVal
  | .int a, .int b => .int (a + b)
  | a, b => .float (ratAdd a.toRat b.toRat)

/-- Python binary `-` on numbers. -/
def pySub : PyVal → PyVal → PyVal
  | .int a, .int b => .int (a - b)
  | a, b => .float (ratSub a.toRat b.toRat)

/-- Python `*` on numbers. -/
def pyMul : PyVal → PyVal → PyVal
  | .int a, .int b => .int (a * b)
  | a, b => .float (ratMul a.toRat b.toRat)

/-- Python unary minus: preserves the int/float kind. -/
def pyNeg : PyVal → PyVal
  | .int n => .int (-n)
  | .float q => .float (Rat.divInt (-q.num) (q.den : ℤ))

/-- Python `/`: true division, always a `float`; raises
`ZeroDivisionError` on a zero divisor. -/
def pyDiv (a b : PyVal) : Except PyErr PyVal :=
  if b.toRat.num = 0 then .error .zeroDiv
  else .ok (.float (ratDiv a.toRat b.toRat))

/-- Python `//`: floor division; `int // int` is `int`, otherwise
`float`; raises `ZeroDivisionError` on a zero divisor. -/
def pyFloorDiv (a b : PyVal) : Except PyErr PyVal :=
  if b.toRat.num = 0 then .error .zeroDiv
  else
    let r := ratFloor (ratDiv a.toRat b.toRat)
    if a.isInt && b.isInt then .ok (.int r) else .ok (.float (intToRat r))

/-- Python `**` for the modelled fragment: integral exponents are exact
(`int ** nonnegative int` is `int`, a negative or float-kinded exponent
gives a `float`; `0` to a negative power raises `ZeroDivisionError`).
A non-integral exponent is reported as an unmodelled error. -/
def pyPow (a b : PyVal) : Except PyErr PyVal :=
  match b with
  | .int k =>
    if a.toRat.num = 0 ∧ k < 0 then .error .zeroDiv
    else if a.isInt && 0 ≤ k then .ok (.int (ratFloor (ratZpow a.toRat k)))
    else .ok (.float (ratZpow a.toRat k))
  | .float q =>
    if q.den = 1 then
      if a.toRat.num = 0 ∧ q.num < 0 then .error .zeroDiv
      else .ok (.float (ratZpow a.toRat q.num))
    else .error (.exn "non-integral exponent not modelled")

/-!
Parser: recursive descent over the token list with explicit fuel (all
recursions decrease the fuel, and the nesting depth of parser calls is
bounded by a small multiple of the token count, so ample fuel makes the
fuel-exhaustion branch unreachable on actual inputs).  Grammar, with
Python's precedences:

  expr   := term (("+" | "-") term)*
  term   := unary (("*" | "/" | "//") unary)*
  unary  := ("+" | "-") unary | power
  power  := atom ("**" unary)?
  atom   := number | "(" expr ")"
-/

mutual

/-- Parse an additive expression. -/
def parseExpr : ℕ → List Tok → Except PyErr (PyVal × List Tok)
  | 0, _ => .error (.exn "parser fuel exhausted")
  | fuel + 1, ts => do
    let (v, r) ← parseTerm fuel ts
    parseExprRest fuel v r

/-- Left-associated chain of `+`/`-` continuations. -/
def parseExprRest : ℕ → PyVal → List Tok → Except PyErr (PyVal × List Tok)
  | 0, _, _ => .error (.exn "parser fuel exhausted")
  | fuel + 1, acc, ts =>
    match ts with
    | .plus :: r => do
      let (v, r2) ← parseTerm fuel r
      parseExprRest fuel (pyAdd acc v) r2
    | .minus :: r => do
      let (v, r2) ← parseTerm fuel r
      parseExprRest fuel (pySub acc v) r2
    | _ => .ok (acc, ts)

/-- Parse a multiplicative term. -/
def parseTerm : ℕ → List Tok → Except PyErr (PyVal × List Tok)
  | 0, _ => .error (.exn "parser fuel exhausted")
  | fuel + 1, ts => do
    let (v, r) ← parseUnary fuel ts
    parseTermRest fuel v r

/-- Left-associated chain of `*`/`/`/`//` continuations. -/
def parseTermRest : ℕ → PyVal → List Tok → Except PyErr (PyVal × List Tok)
  | 0, _, _ => .error (.exn "parser fuel exhausted")
  | fuel + 1, acc, ts =>
    match ts with
    | .star :: r => do
      let (v, r2) ← parseUnary fuel r
      parseTermRest fuel (pyMul acc v) r2
    | .slash :: r => do
      let (v, r2) ← parseUnary fuel r
      let q ← pyDiv acc v
      parseTermRest fuel q r2
    | .dslash :: r => do
      let (v, r2) ← parseUnary fuel r
      let q ← pyFloorDiv acc v
      parseTermRest fuel q r2
    | _ => .ok (acc, ts)

/-- Parse unary plus/minus (binding looser than `**`, as in Python). -/
def parseUnary : ℕ → List Tok → Except PyErr (PyVal × List Tok)
  | 0, _ => .error (.exn "parser fuel exhausted")
  | fuel + 1, ts =>
    match ts with
    | .plus :: r => parseUnary fuel r
    | .minus :: r => do
      let (v, r2) ← parseUnary fuel r
      .ok (pyNeg v, r2)
    | _ => parsePower fuel ts

/-- Parse a power expression (`**` is right-associative and its right
operand is a unary expression, as in Python). -/
def parsePower : ℕ → List Tok → Except PyErr (PyVal × List Tok)
  | 0, _ => .error (.exn "parser fuel exhausted")
  | fuel + 1, ts => do
    let (b, r) ← parseAtom fuel ts
    match r with
    | .dstar :: r2 => do
      let (e, r3) ← parseUnary fuel r2
      let v ← pyPow b e
      .ok (v, r3)
    | _ => .ok (b, r)

/-- Parse an atom: a numeric literal or a parenthesised expression. -/
def parseAtom : ℕ → List Tok → Except PyErr (PyVal × List Tok)
  | 0, _ => .error (.exn "parser fuel exhausted")
  | fuel + 1, ts =>
    match ts with
    | .num v :: r => .ok (v, r)
    | .lparen :: r => do
      let (v, r2) ← parseExpr fuel r
      match r2 with
      | .rparen :: r3 => .ok (v, r3)
      | _ => .error (.exn "invalid syntax")
    | _ => .error (.exn "invalid syntax")

end

/-- Decimal digits of the fractional remainder `rem / den` by long
division, truncated at the given fuel (17 fractional digits, stopping
early on exact termination). -/
def fracDigits : ℕ → ℕ → ℕ → List Char
  | 0, _, _ => []
  | fuel + 1, rem, den =>
    if rem = 0 then []
    else
      let r10 := rem * 10
      Char.ofNat ('0'.toNat + r10 / den) :: fracDigits fuel (r10 % den) den

/-- Decimal rendering of a `float` value (approximation of Python's
`repr`: sign, integer part, fractional digits, `".0"` for integral
floats; shortest-roundtrip rounding and scientific notation are not
modelled and no theorem below depends on them). -/
def floatRepr (q : ℚ) : String :=
  let sign := if q.num < 0 then "-" else ""
  let n : ℕ := q.num.natAbs
  let ds := fracDigits 17 (n % q.den) q.den
  sign ++ toString (n / q.den) ++ "." ++ (if ds.isEmpty then "0" else String.mk ds)

/-- `f"Result: {result}"` interpolation target: Python's rendering of
the evaluated value. -/
def renderVal : PyVal → String
  | .int n => toString n
  | .float q => floatRepr q

/-- Model of Python `eval` on the calculator's restricted alphabet:
tokenize, parse the full token list as one expression, render the
value.  Errors (`ZeroDivisionError`, syntax errors, unmodelled cases)
are returned as data. -/
def pyEval (s : String) : Except PyErr String := do
  let toks ← tokenize (s.data.length + 1) s.data
  let (v, rest) ← parseExpr (6 * (toks.length + 1) + 6) toks
  match rest with
  | [] => .ok (renderVal v)
  | _ => .error (.exn "invalid syntax")

/-- `set('0123456789+-*/.() ')` from `MathTool.calculate`. -/
def allowed_chars : List Char := "0123456789+-*/.() ".data

/-- The rejection text `MathTool.calculate` returns when a character
outside the allow-list is present. -/
def disallowedMsg : String :=
  "Error: Only basic mathematical operations are allowed (+, -, *, /, parentheses)"

namespace MathTool

/-- `MathTool.calculate` from `tools.py`, parameterised by the `eval`
collaborator (instantiated with `pyEval` for the concrete semantics):
strip, reject any character outside the allow-list before evaluation,
evaluate, and convert every failure to text (`ZeroDivisionError`
distinctly, any other exception as `"Error: " + str(e)`). -/
def calculate (ev : String → Except PyErr String) (expression : String) : String :=
  let e := pyStrip expression
  if e.data.all (fun c => decide (c ∈ allowed_chars)) then
    match ev e with
    | .ok r => "Result: " ++ r
    | .error .zeroDiv => "Error: Division by zero"
    | .error (.exn m) => "Error: " ++ m
  else
    disallowedMsg

end MathTool

example : MathTool.calculate pyEval "2 + 2" = "Result: 4" := by decide
example : MathTool.calculate pyEval "10 / 0" = "Error: Division by zero" := by decide
example : MathTool.calculate pyEval "15 / 3" = "Result: 5.0" := by decide
example : MathTool.calculate pyEval "import os" = disallowedMsg := by decide
example : MathTool.calculate pyEval "(2 + 3) * 4" = "Result: 20" := by decide
example : MathTool.calculate pyEval "2 ** 3" = "Result: 8" := by decide
example : MathTool.calculate pyEval "15 * 20 + 100" = "Result: 400" := by decide
example : MathTool.calculate pyEval "10.5 / 2" = "Result: 5.25" := by decide
example : MathTool.calculate pyEval "2 +" = "Error: invalid syntax" := by decide

/-!
## Session memory, sources, and the chat orchestrator (`chatbot.py`)

`ContextAwareChatbot` keeps one `ConversationBufferWindowMemory` per
session id.  Per that collaborator's semantics, the underlying
`chat_memory.messages` is an unbounded append-only list of messages;
the configured window size `k` restricts only the memory's prompt
buffer view, not the stored list.  The handlers append with
`add_user_message` / `add_ai_message`, and `get_session_history`
iterates `chat_memory.messages` directly.
-/

/-- One stored chat message: a `HumanMessage` or an `AIMessage`. -/
inductive Msg where
  | human (content : String)
  | ai (content : String)
deriving DecidableEq

/-- A session's `ConversationBufferWindowMemory`: the configured window
size `k` and the underlying unbounded `chat_memory.messages` list. -/
structure Memory where
  k : ℕ
  messages : List Msg
deriving DecidableEq

/-- `memory.chat_memory.add_user_message(text)`: append. -/
def addUserMessage (m : Memory) (content : String) : Memory :=
  { m with messages := m.messages ++ [Msg.human content] }

/-- `memory.chat_memory.add_ai_message(text)`: append. -/
def addAiMessage (m : Memory) (content : String) : Memory :=
  { m with messages := m.messages ++ [Msg.ai content] }

/-- Append a list of messages one by one (the accumulated effect of the
handlers' `add_user_message`/`add_ai_message` calls on a session). -/
def appendMsgs (m : Memory) (ms : List Msg) : Memory :=
  ms.foldl (fun acc x => { acc with messages := acc.messages ++ [x] }) m

/-- A fresh `ConversationBufferWindowMemory(k=w, ...)` as created by
`get_memory` for an unknown session id. -/
def freshMemory (w : ℕ) : Memory :=
  { k := w, messages := [] }

/-- The role/content pair `get_session_history` emits for one message. -/
def msgEntry : Msg → String × String
  | .human c => ("user", c)
  | .ai c => ("assistant", c)

/-- `ContextAwareChatbot.get_session_history`: iterate the session
memory's full `chat_memory.messages` list, emitting a
`("user", content)` or `("assistant", content)` entry per message. -/
def get_session_history (m : Memory) : List (String × String) :=
  m.messages.map msgEntry

/-- A source attribution record as built by the handlers: a document
record from the RAG tool, or a synthetic web-search / calculator
record carrying the original query. -/
inductive Source where
  | doc (file : String) (page : String) (chunkId : ℕ)
  | web (query : String)
  | calcExpr (expression : String)
deriving DecidableEq

/-- External collaborators of `ContextAwareChatbot`, as configured at
construction time: the optional RAG pipeline (retrieval plus context
formatting, which catches its own errors and always returns), the two
optional search providers, and the two LLM chains, which may raise
(modelled with `Except`, the error carrying `str(e)`). -/
structure ChatEnv where
  ragTool : Option (String → String × List Source)
  tavily : Option (String → ℕ → String)
  serp : Option (String → String)
  llmRag : String → String → Except String String
  llmWeb : String → String → Except String String

/-- The fixed message `WebSearchTool.search` returns when neither
provider is configured. -/
def searchUnavailableMsg : String :=
  "Web search is not available. Please configure SERPAPI_API_KEY or TAVILY_API_KEY."

namespace WebSearchTool

/-- `WebSearchTool.search`: Tavily first, then SerpAPI, else the fixed
unavailability message.  (Each provider adapter catches its own
exceptions and returns text, so the providers are total functions.) -/
def search (env : ChatEnv) (query : String) (num_results : ℕ) : String :=
  match env.tavily with
  | some f => f query num_results
  | none =>
    match env.serp with
    | some f => f query
    | none => searchUnavailableMsg

end WebSearchTool

namespace ContextAwareChatbot

/-- `_handle_rag_query`: without a RAG tool, a fixed soft-failure text
with no sources; otherwise retrieve, generate, append the turn pair to
memory, and return the response with the document sources.  An
exception from the generation chain is caught before the memory
updates, yielding error text and no sources. -/
def handle_rag_query (env : ChatEnv) (query : String) (memory : Memory) :
    String × List Source × Memory :=
  match env.ragTool with
  | none => ("Knowledge base is not available. Please try a web search instead.", [], memory)
  | some rag =>
    let (context, sources) := rag query
    match env.llmRag context query with
    | .ok response =>
      (response, sources, addAiMessage (addUserMessage memory query) response)
    | .error e => ("Error processing knowledge base query: " ++ e, [], memory)

/-- `_handle_web_search_query`: search, generate from the results,
append the turn pair to memory, and attach exactly one synthetic
`{source: web_search, query}` record.  An exception from the
generation chain is caught before the memory updates and the source
construction, yielding error text and no sources. -/
def handle_web_search_query (env : ChatEnv) (query : String) (memory : Memory) :
    String × List Source × Memory :=
  let search_results := WebSearchTool.search env query 5
  match env.llmWeb search_results query with
  | .ok response =>
    (response, [Source.web query], addAiMessage (addUserMessage memory query) response)
  | .error e => ("Error performing web search: " ++ e, [], memory)

/-- `re.search(r'[\d\+\-\*/\(\)\.\s]+', query)`: the character class of
the math-expression extraction in `_handle_math_query`. -/
def mathExprClass (c : Char) : Bool :=
  isPyDigit c || c == '+' || c == '-' || c == '*' || c == '/' ||
    c == '(' || c == ')' || c == '.' || isPyWs c

/-- The leftmost maximal run of `mathExprClass` characters, if any
(`re.search` of a greedy one-class pattern). -/
def firstMathRun : List Char → Option (List Char)
  | [] => none
  | c :: rest =>
    if mathExprClass c then some (c :: rest.takeWhile mathExprClass)
    else firstMathRun rest

/-- `_handle_math_query`: extract the first run of expression-class
characters, strip it, calculate it and prefix the echo line; if no run
exists, calculate the raw query.  Appends the turn pair to memory and
attaches exactly one synthetic `{source: calculator, expression:
<original query>}` record. -/
def handle_math_query (ev : String → Except PyErr String) (query : String) (memory : Memory) :
    String × List Source × Memory :=
  let response :=
    match firstMathRun query.data with
    | some run =>
      let expression := pyStrip (String.mk run)
      "Mathematical calculation for: " ++ expression ++ "\n" ++ MathTool.calculate ev expression
    | none => MathTool.calculate ev query
  (response, [Source.calcExpr query], addAiMessage (addUserMessage memory query) response)

end ContextAwareChatbot

/-- Result of `DatabaseManager.get_session_stats`: the error dict
`{"error": "Session not found"}` or the stats record. -/
inductive StatsResult where
  | err (msg : String)
  | ok (session_id user_id created_at last_activity : String)
      (total_messages : ℕ) (tools_used : List (String × ℕ))
deriving DecidableEq

/-- `d[key] = d.get(key, 0) + 1` on an insertion-ordered dict modelled
as an association list: increment in place if present, else append
with count 1. -/
def bumpCount : List (String × ℕ) → String → List (String × ℕ)
  | [], key => [(key, 1)]
  | (k, n) :: rest, key =>
    if k == key then (k, n + 1) :: rest else (k, n) :: bumpCount rest key

/-- A `chat_sessions` row (`ChatSession` model in `database.py`);
timestamps are opaque strings here. -/
structure ChatSessionRow where
  session_id : String
  user_id : String
  created_at : String
  last_activity : String
deriving DecidableEq

/-- A `conversation_logs` row (`ConversationLog` model in
`database.py`); the auto-increment id and timestamp are irrelevant to
every claim and omitted. -/
structure ConversationLogRow where
  session_id : String
  user_message : String
  bot_response : String
  tool_used : String
  sources : List Source
deriving DecidableEq

/-- The persistent store: the two tables the claims touch. -/
structure Db where
  sessions : List ChatSessionRow
  logs : List ConversationLogRow
deriving DecidableEq

/-- The record returned by `ContextAwareChatbot.chat`. -/
structure ChatResult where
  response : String
  sources : List Source
  tool_used : String
  routing_explanation : String
  session_id : String
deriving DecidableEq

namespace ContextAwareChatbot

/-- `ContextAwareChatbot.create_session`: generate a session id (the
UUID generation is an external effect, passed in here together with
the clock), then try to persist the row; a persistence failure is
caught and rolled back, and the generated id is returned regardless. -/
def create_session (uuid userId now : String) (persistOk : Bool) (db : Db) : String × Db :=
  let session_id := uuid
  let db2 :=
    if persistOk then
      { db with sessions := db.sessions ++ [⟨session_id, userId, now, now⟩] }
    else db
  (session_id, db2)

/-- `ContextAwareChatbot._log_conversation`: append one row; a
persistence failure is caught and rolled back. -/
def log_conversation (sid userMessage botResponse toolUsed : String)
    (sources : List Source) (persistOk : Bool) (db : Db) : Db :=
  if persistOk then
    { db with logs := db.logs ++ [⟨sid, userMessage, botResponse, toolUsed, sources⟩] }
  else db

/-- `ContextAwareChatbot.chat`: route, dispatch to the matching
handler (falling back to the RAG handler for an unrecognized route),
log the exchange, and return the response record whose `tool_used` is
the route. -/
def chat (env : ChatEnv) (message session_id : String) (memory : Memory)
    (persistOk : Bool) (db : Db) : ChatResult × Memory × Db :=
  let route := QueryRouter.route message
  let handled :=
    if route = "rag" then handle_rag_query env message memory
    else if route = "web_search" then handle_web_search_query env message memory
    else if route = "math" then handle_math_query pyEval message memory
    else handle_rag_query env message memory
  let response := handled.1
  let sources := handled.2.1
  let memory2 := handled.2.2
  let db2 := log_conversation session_id message response route sources persistOk db
  let result : ChatResult :=
    { response := response
      sources := sources
      tool_used := route
      routing_explanation := QueryRouter.get_routing_explanation message
      session_id := session_id }
  (result, memory2, db2)

/-- `ContextAwareChatbot.get_session_stats` (`chatbot.py` flavour):
counts of logged messages and a tool-usage tally for the session; no
existence check on the session row. -/
def get_session_stats (sid : String) (db : Db) : ℕ × List (String × ℕ) :=
  let logs := db.logs.filter fun l => l.session_id == sid
  (logs.length, logs.foldl (fun acc l => bumpCount acc l.tool_used) [])

end ContextAwareChatbot

namespace DatabaseManager

/-- `DatabaseManager.get_session_stats` from `database.py`: look the
session row up first and report `{"error": "Session not found"}` when
it is absent; otherwise assemble the per-session counters from the
conversation logs. -/
def get_session_stats (sid : String) (db : Db) : StatsResult :=
  match db.sessions.find? (fun s => s.session_id == sid) with
  | none => .err "Session not found"
  | some s =>
    let logs := db.logs.filter fun l => l.session_id == sid
    .ok sid s.user_id s.created_at s.last_activity logs.length
      (logs.foldl (fun acc l => bumpCount acc l.tool_used) [])

/-- `DatabaseManager.delete_session` from `database.py`: delete the
session's conversation logs, then the session row, committing and
returning `True`; if no session row exists, nothing is committed (the
uncommitted log deletion is discarded when the database session
closes) and `False` is returned.  `session_id` is the table's primary
key, so the row found by the filtered query is the unique matching row
and its deletion is modelled as filtering all matching rows out. -/
def delete_session (sid : String) (db : Db) : Bool × Db :=
  let logsDeleted := db.logs.filter fun l => !(l.session_id == sid)
  match db.sessions.find? (fun s => s.session_id == sid) with
  | some _ =>
    (true, { sessions := db.sessions.filter fun s => !(s.session_id == sid),
             logs := logsDeleted })
  | none => (false, db)

end DatabaseManager

/-!
## Evaluation harness (`evaluation.py`)

`run_evaluation` drives the chatbot and two scoring collaborators over
a dataset.  The per-case interaction with those collaborators — the
chat call, the faithfulness and relevance scorers (each of which
catches its own exceptions and degrades to an `"N/A"`/`"ERROR"`
score), and the expected/actual tool pair — is abstracted as a
per-case outcome record; a whole-case exception (the `except` branch
of the loop body) is the other variant.  The aggregation below that
record is modelled from the source.
-/

/-- A faithfulness/relevance score as stored in a result dict: a
numeric score, `"N/A"`, or `"ERROR"` (a caught scoring failure). -/
inductive Score where
  | num (q : ℚ)
  | na
  | err
deriving DecidableEq

/-- `ChatbotEvaluator.evaluate_tool_routing`: case-insensitive exact
match of expected versus actual tool, with a 1.0/0.0 score. -/
def evaluate_tool_routing (expected actual : String) : Bool × ℚ :=
  let correct := pyLower expected == pyLower actual
  (correct, if correct then natToRat 1 else natToRat 0)

/-- The outcome of one iteration of the evaluation loop: a completed
case (with its two scores, its expected/actual tools and its category
label), or a whole-case exception caught by the loop. -/
inductive CaseOutcome where
  | ok (faithfulness relevance : Score) (expectedTool actualTool category : String)
  | exn (msg : String)
deriving DecidableEq

/-- `scores["faithfulness"]`: the numeric faithfulness scores, in case
order; `"N/A"` and `"ERROR"` scores and errored cases contribute
nothing. -/
def faithfulnessScores (cases : List CaseOutcome) : List ℚ :=
  cases.filterMap fun c =>
    match c with
    | .ok (.num q) _ _ _ _ => some q
    | _ => none

/-- `scores["relevance"]`, collected like the faithfulness scores. -/
def relevanceScores (cases : List CaseOutcome) : List ℚ :=
  cases.filterMap fun c =>
    match c with
    | .ok _ (.num q) _ _ _ => some q
    | _ => none

/-- `scores["tool_routing"]`: every completed case contributes its
routing score. -/
def toolRoutingScores (cases : List CaseOutcome) : List ℚ :=
  cases.filterMap fun c =>
    match c with
    | .ok _ _ expected actual _ => some (evaluate_tool_routing expected actual).2
    | .exn _ => none

/-- The per-metric summary produced by `_calculate_summary_stats`. -/
structure MetricSummary where
  mean : ℚ
  count : ℕ
  scores : List ℚ
deriving DecidableEq

/-- Sum of a list of rationals (via the reducible addition). -/
def ratSum (l : List ℚ) : ℚ :=
  l.foldr ratAdd (natToRat 0)

/-- One metric's block of `_calculate_summary_stats`: mean and count of
the collected numeric scores, or a zero summary when none exist. -/
def summarize (score_list : List ℚ) : MetricSummary :=
  if score_list.isEmpty then
    { mean := natToRat 0, count := 0, scores := [] }
  else
    { mean := ratDiv (ratSum score_list) (natToRat score_list.length)
      count := score_list.length
      scores := score_list }

/-- One `categories[category]` update of `_calculate_summary_stats`:
increment the total (and, when the routing was correct, the correct
count) in place, initialising a fresh `(correct, total)` entry for an
unseen category. -/
def bumpTally : List (String × ℕ × ℕ) → String → Bool → List (String × ℕ × ℕ)
  | [], key, correct => [(key, (if correct then 1 else 0), 1)]
  | (k, c, t) :: rest, key, correct =>
    if k == key then (k, (if correct then c + 1 else c), t + 1) :: rest
    else (k, c, t) :: bumpTally rest key correct

/-- Routing tallies per category (`categories` dict of
`_calculate_summary_stats`): insertion-ordered `(category, correct,
total)` triples accumulated over the non-errored cases in order. -/
def categoryTallies (cases : List CaseOutcome) : List (String × ℕ × ℕ) :=
  cases.foldl
    (fun acc c =>
      match c with
      | .exn _ => acc
      | .ok _ _ expected actual category =>
        bumpTally acc category (evaluate_tool_routing expected actual).1)
    []

/-- The evaluation report assembled by `run_evaluation`. -/
structure EvalReport where
  total_test_cases : ℕ
  successful_evaluations : ℕ
  faithfulness : MetricSummary
  relevance : MetricSummary
  tool_routing : MetricSummary
  category_performance : List (String × ℚ × ℕ × ℕ)
deriving DecidableEq

namespace ChatbotEvaluator

/-- `ChatbotEvaluator.run_evaluation`, over the per-case outcomes of
its collaborators: every case lands in the results list (errored ones
as `{"question", "error"}` records), the numeric score lists feed the
per-metric summaries, `total_test_cases` is the dataset size and
`successful_evaluations` counts the non-errored results.  Nothing
aborts the batch: the function is total in the outcome list. -/
def run_evaluation (cases : List CaseOutcome) : EvalReport :=
  { total_test_cases := cases.length
    successful_evaluations :=
      (cases.filter fun c =>
        match c with
        | .ok _ _ _ _ _ => true
        | .exn _ => false).length
    faithfulness := summarize (faithfulnessScores cases)
    relevance := summarize (relevanceScores cases)
    tool_routing := summarize (toolRoutingScores cases)
    category_performance :=
      (categoryTallies cases).map fun t =>
        (t.1, if t.2.2 = 0 then natToRat 0 else ratDiv (natToRat t.2.1) (natToRat t.2.2),
          t.2.1, t.2.2) }

end ChatbotEvaluator

/-!
## Spec-side definitions

Used only to state claims whose wording differs from the source, so
that the divergence itself is a theorem. -/

/-- The operator alphabet of the numeric-operator pattern as the spec
states it: `+ - * / %` (the source's regular expression has no `%`). -/
def isSpecOpChar (c : Char) : Bool :=
  c == '+' || c == '-' || c == '*' || c == '/' || c == '%'

/-- Head match of the spec's numeric-operator pattern (two numbers
joined by a spec operator, optional whitespace). -/
def matchSpecNumHere (cs : List Char) : Bool :=
  match cs.takeWhile isPyDigit with
  | [] => false
  | _ :: _ =>
    match (cs.dropWhile isPyDigit).dropWhile isPyWs with
    | [] => false
    | c :: rest =>
      isSpecOpChar c &&
        match rest.dropWhile isPyWs with
        | [] => false
        | d :: _ => isPyDigit d

/-- Search for the spec's numeric-operator pattern anywhere in the
text. -/
def searchSpecNumPattern : List Char → Bool
  | [] => false
  | c :: rest => matchSpecNumHere (c :: rest) || searchSpecNumPattern rest

/-- The calculator allow-list as the claim states it: digits,
`+ - * / ( ) .`, and whitespace. -/
def specAllowedChar (c : Char) : Bool :=
  isPyDigit c || c == '+' || c == '-' || c == '*' || c == '/' ||
    c == '(' || c == ')' || c == '.' || isPyWs c

/-!
## Concrete environments and fixtures
-/

/-- A chatbot environment with no retriever and no search provider
configured, and generation chains that succeed with a fixed text. -/
def envNoProviders : ChatEnv :=
  { ragTool := none
    tavily := none
    serp := none
    llmRag := fun _ _ => .ok "llm answer"
    llmWeb := fun _ _ => .ok "llm answer" }

/-- An empty persistent store. -/
def emptyDb : Db := ⟨[], []⟩

/-- A store holding one session (`"s1"`) with one logged exchange. -/
def sampleDb : Db :=
  ⟨[⟨"s1", "u1", "t0", "t0"⟩], [⟨"s1", "hello", "hi there", "rag", []⟩]⟩

/-- Eleven turns (six user messages, five assistant replies), one more
than the default window size `W = 10` of `config.memory_window`. -/
def elevenTurns : List Msg :=
  [Msg.human "m1", Msg.ai "r1", Msg.human "m2", Msg.ai "r2", Msg.human "m3",
   Msg.ai "r3", Msg.human "m4", Msg.ai "r4", Msg.human "m5", Msg.ai "r5",
   Msg.human "m6"]

/-- Four completed evaluation cases with faithfulness scores 4, 5, 3, 4
(matching relevance scores, correctly routed). -/
def fourScoredCases : List CaseOutcome :=
  [CaseOutcome.ok (Score.num (natToRat 4)) (Score.num (natToRat 4)) "rag" "rag" "policy",
   CaseOutcome.ok (Score.num (natToRat 5)) (Score.num (natToRat 5)) "math" "math" "calculation",
   CaseOutcome.ok (Score.num (natToRat 3)) (Score.num (natToRat 3)) "rag" "rag" "policy",
   CaseOutcome.ok (Score.num (natToRat 4)) (Score.num (natToRat 4)) "web_search" "web_search"
     "current_events"]

/-- The four scored cases plus a fifth whose faithfulness scoring call
failed and was recorded as an `"ERROR"` score. -/
def fourScoredCasesAndError : List CaseOutcome :=
  fourScoredCases ++
    [CaseOutcome.ok Score.err (Score.num (natToRat 4)) "rag" "rag" "policy"]

/-!
## Helper lemmas
-/

/-- An element on which the predicate fails survives `dropWhile`. -/
theorem mem_dropWhile_of_pred_false {α : Type} (p : α → Bool) {c : α} :
    ∀ {l : List α}, c ∈ l → p c = false → c ∈ l.dropWhile p := by
  intro l hc hpc
  induction l with
  | nil => cases hc
  | cons a t ih =>
    cases hpa : p a with
    | false =>
      rw [List.dropWhile_cons, hpa]
      simpa using hc
    | true =>
      rw [List.dropWhile_cons, hpa]
      simp only [if_true]
      rcases List.mem_cons.mp hc with h | h
      · subst h; rw [hpa] at hpc; cases hpc
      · exact ih h

/-- A non-whitespace character of the input survives `str.strip`. -/
theorem mem_pyStripList {c : Char} {cs : List Char} (hc : c ∈ cs)
    (hw : isPyWs c = false) : c ∈ pyStripList cs := by
  unfold pyStripList
  have h1 := mem_dropWhile_of_pred_false isPyWs hc hw
  have h2 : c ∈ (cs.dropWhile isPyWs).reverse := List.mem_reverse.mpr h1
  have h3 := mem_dropWhile_of_pred_false isPyWs h2 hw
  exact List.mem_reverse.mpr h3

/-- `calculate` rejects any input containing a character outside the
allow-list of digits, operators, parentheses, dot and whitespace,
whatever the evaluation collaborator would do. -/
theorem calculate_rejects_bad_char (ev : String → Except PyErr String) (s : String)
    (h : ∃ c ∈ s.data, specAllowedChar c = false) :
    MathTool.calculate ev s = disallowedMsg := by
  obtain ⟨c, hcs, hcspec⟩ := h
  have hw : isPyWs c = false := by
    revert hcspec
    unfold specAllowedChar
    cases isPyWs c <;> simp
  have hmem : c ∈ (pyStrip s).data := mem_pyStripList hcs hw
  have hnotallowed : decide (c ∈ allowed_chars) = false := by
    cases hb : decide (c ∈ allowed_chars) with
    | false => rfl
    | true =>
      have hcin : c ∈ allowed_chars := of_decide_eq_true hb
      have hall : ∀ x ∈ allowed_chars, specAllowedChar x = true := by decide
      rw [hall c hcin] at hcspec
      cases hcspec
  have hfalse : ((pyStrip s).data.all fun c => decide (c ∈ allowed_chars)) = false := by
    cases hb : (pyStrip s).data.all fun c => decide (c ∈ allowed_chars) with
    | false => rfl
    | true =>
      have := List.all_eq_true.mp hb c hmem
      rw [this] at hnotallowed
      cases hnotallowed
  unfold MathTool.calculate
  rw [if_neg (by simp [hfalse])]

/-!
## Claim theorems
-/

/-- C1: evaluation of the code at the claimed end-to-end input.  For
`chat("Calculate 15% of 250000", sid)` on a fresh session, the router
returns `"rag"` (its numeric-operator pattern has no `%`), so the chat
result's tool is `"rag"`, not the calculation category; and even the
math handler itself would extract only `15` from this text and answer
`Result: 15`, never `37500`. -/
theorem c1_misrouted_percent_math_query :
    QueryRouter.route "Calculate 15% of 250000" = "rag" ∧
    (ContextAwareChatbot.chat envNoProviders "Calculate 15% of 250000" "sid-1"
        (freshMemory 10) true emptyDb).1.tool_used = "rag" ∧
    (ContextAwareChatbot.handle_math_query pyEval "Calculate 15% of 250000"
        (freshMemory 10)).1 = "Mathematical calculation for: 15\nResult: 15" := by
  refine ⟨by decide, by decide, by decide⟩

/-- C2 counterexample: with the default window `W = 10`, after
appending eleven turns the history read returns all eleven entries in
insertion order — not the ten most-recent turns with the oldest
evicted, as the claim states. -/
theorem c2_window_counterexample :
    get_session_history (appendMsgs (freshMemory 10) elevenTurns) =
      [("user", "m1"), ("assistant", "r1"), ("user", "m2"), ("assistant", "r2"),
       ("user", "m3"), ("assistant", "r3"), ("user", "m4"), ("assistant", "r4"),
       ("user", "m5"), ("assistant", "r5"), ("user", "m6")] ∧
    get_session_history (appendMsgs (freshMemory 10) elevenTurns) ≠
      [("assistant", "r1"), ("user", "m2"), ("assistant", "r2"),
       ("user", "m3"), ("assistant", "r3"), ("user", "m4"), ("assistant", "r4"),
       ("user", "m5"), ("assistant", "r5"), ("user", "m6")] := by
  refine ⟨by decide, by decide⟩

/-- Appending messages to a memory concatenates them onto the stored
list. -/
theorem appendMsgs_messages (m : Memory) (ms : List Msg) :
    (appendMsgs m ms).messages = m.messages ++ ms := by
  induction ms generalizing m with
  | nil => simp [appendMsgs]
  | cons x xs ih =>
    show (appendMsgs { m with messages := m.messages ++ [x] } xs).messages = _
    rw [ih]
    simp

/-- C2 amended: for every window size and every sequence of appended
turns, the session history read returns one entry per appended turn,
in insertion order — no turn is ever evicted; the configured window
size does not limit the history read-out. -/
theorem c2_history_returns_all_turns (w : ℕ) (ms : List Msg) :
    get_session_history (appendMsgs (freshMemory w) ms) = ms.map msgEntry ∧
    (get_session_history (appendMsgs (freshMemory w) ms)).length = ms.length := by
  have h : (appendMsgs (freshMemory w) ms).messages = ms := by
    rw [appendMsgs_messages]
    simp [freshMemory]
  constructor <;> simp [get_session_history, h]

/-- C3 counterexample: with no search provider configured and a
generation chain that succeeds, the recency query is routed to web
search, but the source list is the one synthetic web-search record —
not empty — and the response is the generation chain's output, not the
fixed unavailability message. -/
theorem c3_sources_counterexample :
    (ContextAwareChatbot.chat envNoProviders "What are the latest AI safety guidelines?"
        "sid-1" (freshMemory 10) true emptyDb).1 =
      { response := "llm answer"
        sources := [Source.web "What are the latest AI safety guidelines?"]
        tool_used := "web_search"
        routing_explanation := "Routing to web search for current information"
        session_id := "sid-1" } ∧
    [Source.web "What are the latest AI safety guidelines?"] ≠ ([] : List Source) ∧
    "llm answer" ≠ searchUnavailableMsg := by
  refine ⟨by decide, by decide, by decide⟩

/-- C3 amended: with no search provider configured, chat on the
recency query returns tool `web_search`; the search step yields the
fixed unavailability message, which is passed as the search-results
context to the generation chain, whose output is the response; and the
sources are exactly one synthetic web-search record carrying the
original query. -/
theorem c3_web_unavailable_flow (env : ChatEnv) (sid r : String) (mem : Memory)
    (db : Db) (ht : env.tavily = none) (hs : env.serp = none)
    (hllm : env.llmWeb searchUnavailableMsg "What are the latest AI safety guidelines?" =
      .ok r) :
    (ContextAwareChatbot.chat env "What are the latest AI safety guidelines?" sid mem
        true db).1 =
      { response := r
        sources := [Source.web "What are the latest AI safety guidelines?"]
        tool_used := "web_search"
        routing_explanation := "Routing to web search for current information"
        session_id := sid } := by
  have hroute : QueryRouter.route "What are the latest AI safety guidelines?" =
      "web_search" := by decide
  have hexp : QueryRouter.get_routing_explanation
      "What are the latest AI safety guidelines?" =
      "Routing to web search for current information" := by decide
  have hsearch : WebSearchTool.search env "What are the latest AI safety guidelines?" 5 =
      searchUnavailableMsg := by
    unfold WebSearchTool.search
    rw [ht, hs]
  have hweb : ContextAwareChatbot.handle_web_search_query env
      "What are the latest AI safety guidelines?" mem =
      (r, [Source.web "What are the latest AI safety guidelines?"],
        addAiMessage (addUserMessage mem "What are the latest AI safety guidelines?") r) := by
    simp [ContextAwareChatbot.handle_web_search_query, hsearch, hllm]
  simp [ContextAwareChatbot.chat, hroute, hexp, hweb]

/-- C3 amended, witness at a concrete environment. -/
theorem c3_web_unavailable_flow_witness :
    envNoProviders.tavily = none ∧ envNoProviders.serp = none ∧
    envNoProviders.llmWeb searchUnavailableMsg
      "What are the latest AI safety guidelines?" = .ok "llm answer" ∧
    (ContextAwareChatbot.chat envNoProviders "What are the latest AI safety guidelines?"
        "sid-9" (freshMemory 10) true emptyDb).1 =
      { response := "llm answer"
        sources := [Source.web "What are the latest AI safety guidelines?"]
        tool_used := "web_search"
        routing_explanation := "Routing to web search for current information"
        session_id := "sid-9" } :=
  ⟨rfl, rfl, rfl,
    c3_web_unavailable_flow envNoProviders "sid-9" "llm answer" (freshMemory 10)
      emptyDb rfl rfl rfl⟩

/-- C4 counterexample: `"compute 20 % 5"` contains a math-indicator
token and matches the spec's numeric-operator pattern (two numbers
joined by `%`), yet the router returns `"rag"`, not the calculation
category. -/
theorem c4_percent_counterexample :
    containsAny (pyLower "compute 20 % 5") QueryRouter.math_keywords = true ∧
    searchSpecNumPattern "compute 20 % 5".data = true ∧
    QueryRouter.route "compute 20 % 5" ≠ "math" := by
  refine ⟨by decide, by decide, by decide⟩

/-- C4 amended: for every query containing a math-indicator token and
matching the source's numeric-operator pattern (two numbers joined by
one of `+ - * /`, optional whitespace — `%` is not in the pattern),
the router returns the calculation category. -/
theorem c4_keyword_and_pattern_route_math (q : String)
    (h1 : containsAny (pyLower q) QueryRouter.math_keywords = true)
    (h2 : searchMathPattern q.data = true) :
    QueryRouter.route q = "math" := by
  simp [QueryRouter.route, h1, h2]

/-- C4 amended, witness at a concrete query. -/
theorem c4_keyword_and_pattern_route_math_witness :
    containsAny (pyLower "What is 2 + 2?") QueryRouter.math_keywords = true ∧
    searchMathPattern "What is 2 + 2?".data = true ∧
    QueryRouter.route "What is 2 + 2?" = "math" :=
  ⟨by decide, by decide,
    c4_keyword_and_pattern_route_math "What is 2 + 2?" (by decide) (by decide)⟩

/-- C5: any input containing a character outside the allow-list of
digits, `+ - * / ( ) .` and whitespace is answered with the rejection
text, for every possible evaluation collaborator — so the evaluation
step is never reached; in particular `calculate("import os")` is
rejected unevaluated. -/
theorem c5_disallowed_rejected_before_eval :
    (∀ (ev : String → Except PyErr String) (s : String),
        (∃ c ∈ s.data, specAllowedChar c = false) →
        MathTool.calculate ev s = disallowedMsg) ∧
    (∀ ev : String → Except PyErr String,
        MathTool.calculate ev "import os" = disallowedMsg) :=
  ⟨calculate_rejects_bad_char,
    fun ev => calculate_rejects_bad_char ev "import os" ⟨'i', by decide, by decide⟩⟩

/-- C5, witness at the concrete rejected input. -/
theorem c5_disallowed_rejected_before_eval_witness :
    (∃ c ∈ "import os".data, specAllowedChar c = false) ∧
    MathTool.calculate pyEval "import os" = disallowedMsg :=
  ⟨⟨'i', by decide, by decide⟩,
    c5_disallowed_rejected_before_eval.1 pyEval "import os" ⟨'i', by decide, by decide⟩⟩

/-- C6: `calculate("2 + 2")` succeeds with numeric result 4,
`calculate("10 / 0")` reports division by zero as its own explicit
error text, and on every input the function returns one of its textual
shapes — rejection, a result, the division-by-zero report, or another
error text — never raising past its boundary. -/
theorem c6_calculate_total_and_distinct_errors :
    MathTool.calculate pyEval "2 + 2" = "Result: 4" ∧
    MathTool.calculate pyEval "10 / 0" = "Error: Division by zero" ∧
    ∀ s : String,
      MathTool.calculate pyEval s = disallowedMsg ∨
      (∃ r, MathTool.calculate pyEval s = "Result: " ++ r) ∨
      MathTool.calculate pyEval s = "Error: Division by zero" ∨
      ∃ m, MathTool.calculate pyEval s = "Error: " ++ m := by
  refine ⟨by decide, by decide, ?_⟩
  intro s
  cases hb : (pyStrip s).data.all (fun c => decide (c ∈ allowed_chars)) with
  | false =>
    left
    simp [MathTool.calculate, hb]
  | true =>
    cases hev : pyEval (pyStrip s) with
    | ok r =>
      right; left
      exact ⟨r, by simp [MathTool.calculate, hb, hev]⟩
    | error e =>
      cases e with
      | zeroDiv =>
        right; right; left
        simp [MathTool.calculate, hb, hev]
      | exn m =>
        right; right; right
        exact ⟨m, by simp [MathTool.calculate, hb, hev]⟩

/-- C7: the evaluation aggregates each metric as mean and count over
the numeric scores only — faithfulness scores 4, 5, 3, 4 give mean 4
with count 4; adding a case whose scoring call failed (an error score)
leaves the mean and count unchanged while the run's totals still count
it and the batch completes; the total always equals the dataset size,
and an error-scored case contributes nothing to the numeric list. -/
theorem c7_aggregation_mean_count_totals :
    (ChatbotEvaluator.run_evaluation fourScoredCases).faithfulness.mean = natToRat 4 ∧
    (ChatbotEvaluator.run_evaluation fourScoredCases).faithfulness.count = 4 ∧
    (ChatbotEvaluator.run_evaluation fourScoredCasesAndError).faithfulness.mean =
      natToRat 4 ∧
    (ChatbotEvaluator.run_evaluation fourScoredCasesAndError).faithfulness.count = 4 ∧
    (ChatbotEvaluator.run_evaluation fourScoredCasesAndError).total_test_cases = 5 ∧
    (ChatbotEvaluator.run_evaluation fourScoredCasesAndError).successful_evaluations = 5 ∧
    (∀ cases : List CaseOutcome,
        (ChatbotEvaluator.run_evaluation cases).total_test_cases = cases.length) ∧
    (∀ (pre post : List CaseOutcome) (rel : Score) (e a cat : String),
        faithfulnessScores (pre ++ CaseOutcome.ok Score.err rel e a cat :: post) =
          faithfulnessScores (pre ++ post)) := by
  refine ⟨by decide, by decide, by decide, by decide, by decide, by decide, ?_, ?_⟩
  · intro cases
    rfl
  · intro pre post rel e a cat
    simp [faithfulnessScores, List.filterMap_append]

/-- The lookup on a list from which every matching element has been
filtered out finds nothing. -/
theorem find?_filter_not {α : Type} (p : α → Bool) (l : List α) :
    (l.filter fun x => !(p x)).find? p = none := by
  induction l with
  | nil => rfl
  | cons a t ih =>
    cases hp : p a with
    | true => simp [List.filter_cons, hp, ih]
    | false => simp [List.filter_cons, hp, List.find?_cons, ih]

/-- C8: after a successful `delete_session(sid)`, `get_session_stats(sid)`
reports that the session was not found. -/
theorem c8_stats_not_found_after_delete (db : Db) (sid : String)
    (h : (DatabaseManager.delete_session sid db).1 = true) :
    DatabaseManager.get_session_stats sid (DatabaseManager.delete_session sid db).2 =
      StatsResult.err "Session not found" := by
  cases hf : db.sessions.find? (fun s => s.session_id == sid) with
  | none =>
    simp [DatabaseManager.delete_session, hf] at h
  | some s =>
    have h2 : (DatabaseManager.delete_session sid db).2 =
        ⟨db.sessions.filter fun x => !(x.session_id == sid),
         db.logs.filter fun l => !(l.session_id == sid)⟩ := by
      simp [DatabaseManager.delete_session, hf]
    rw [h2]
    dsimp only [DatabaseManager.get_session_stats]
    rw [find?_filter_not]

/-- C8, witness at a concrete store holding the session. -/
theorem c8_stats_not_found_after_delete_witness :
    (DatabaseManager.delete_session "s1" sampleDb).1 = true ∧
    DatabaseManager.get_session_stats "s1" (DatabaseManager.delete_session "s1" sampleDb).2 =
      StatsResult.err "Session not found" :=
  ⟨by decide, c8_stats_not_found_after_delete sampleDb "s1" (by decide)⟩

/-- C10: `create_session` returns the freshly generated id whether or
not the session row could be persisted, and on a persistence failure
the store is rolled back unchanged — so the caller's id may correspond
to no durable session record. -/
theorem c10_create_session_returns_id (uuid userId now : String) (db : Db) :
    (ContextAwareChatbot.create_session uuid userId now true db).1 = uuid ∧
    (ContextAwareChatbot.create_session uuid userId now false db).1 = uuid ∧
    (ContextAwareChatbot.create_session uuid userId now false db).2 = db :=
  ⟨rfl, rfl, rfl⟩
